import Mathlib

/-!
Verification development for the wave-to-txt transcription pipeline
(`src/backend`).  The job store is a Redis key/value map holding one JSON
record per task id; every stage reads the whole record and overwrites the
whole value (`redis_client.set(task_id, json.dumps(...))`).  We embed one
job's record as a structure whose `Option` fields model JSON keys that may
be absent (`none` = key absent or JSON `null`), and each handler / Celery
task as a pure function from the pre-state to the post-state plus its
observable effects (HTTP response, external calls made, Celery tasks
enqueued).  External services (AssemblyAI fetch, Groq transcription,
Gemini summary generation, the langchain text splitter, embedding calls)
are modelled as oracle parameters carrying the outcome of the call.
-/

/-- One utterance `{speaker, text}` as stored in the job record
    (`src/backend/routers/transcription.py`, class `Utterance`). -/
structure Utterance where
  speaker : Option String
  text : String
deriving Repr, DecidableEq

/-- A job record in the Redis job store.  Mirrors the JSON dicts written by
    `create_transcription`, `process_transcription_task`,
    `assemblyai_webhook`, `process_summarization_task` and
    `initialize_vector_store_task`.  `status` is always present in every
    dict the code writes; every other key may be absent (`none`). -/
structure JobRecord where
  status : String
  utterances : Option (List Utterance)
  error : Option String
  audio_url : Option String
  object_key : Option String
  summary : Option String
  summary_status : Option String
  summary_error : Option String
  rag_ready : Option Bool
  rag_collection : Option String
  rag_chunks : Option Nat
  rag_error : Option String
deriving Repr, DecidableEq

/-- Python truthiness of an optional string: `None` and `""` are falsy. -/
def strTruthy : Option String → Bool
  | none => false
  | some s => s ≠ ""

/-- Python truthiness of an optional utterance list:
    `None` and `[]` are falsy (`if not task_data.get("utterances")`). -/
def uttsTruthy : Option (List Utterance) → Bool
  | none => false
  | some [] => false
  | some (_ :: _) => true

/-- Strip the internal storage reference before returning a record to a
    client: `task_data.pop("object_key", None)` in `get_status` and
    `event_generator`. -/
def stripInternal (r : JobRecord) : JobRecord := { r with object_key := none }

/-! ## Callback receiver (`assemblyai_webhook`) -/

/-- Webhook payload `{transcript_id, status, error?}`
    (class `AssemblyAIWebhookPayload`). -/
structure WebhookPayload where
  transcript_id : String
  status : String
  error : Option String
deriving Repr, DecidableEq

/-- The transcript document fetched from
    `https://api.assemblyai.com/v2/transcript/{id}`; the handler only uses
    `transcript_data.get("utterances", [])`. -/
structure TranscriptData where
  utterances : List Utterance
deriving Repr, DecidableEq

/-- Environment of one webhook invocation: service availability, the
    configured shared secret, and the outcome of the (single possible)
    external transcript fetch.  `presignUrl` models boto3's local URL
    signing, which for this fixed, valid `get_object` operation is a pure
    local computation; the defensive `except ClientError` branch of
    `generate_presigned_url` is unreachable for it. -/
structure WebhookEnv where
  redisOk : Bool
  configuredSecret : Option String
  fetchResult : Except String TranscriptData
  r2ok : Bool
  presignUrl : String → String

/-- Generates a pre-signed playback URL
    (`src/backend/core/r2_client.py`, `generate_presigned_url`):
    `None` when the R2 client is not initialized, otherwise the signed URL
    for the object key. -/
def generate_presigned_url (r2ok : Bool) (presignUrl : String → String)
    (object_key : String) : Option String :=
  if r2ok then some (presignUrl object_key) else none

/-- HTTP outcome of the webhook handler. -/
inductive WebhookResp
  | ack200Internal
  | err500NotConfigured
  | err401Missing
  | err403Invalid
  | ok200
  | ok200DataLost
deriving Repr, DecidableEq

/-- Result of one webhook invocation: post-state of the job's Redis value,
    the HTTP response, how many external transcript fetches were issued,
    and which Celery tasks were enqueued. -/
structure WebhookOut where
  store : Option JobRecord
  resp : WebhookResp
  fetchCalls : Nat
  enqueued : List String
deriving Repr, DecidableEq

/-- The record written by the webhook `completed` branch
    (`final_data` in `assemblyai_webhook`): a full overwrite whose dict has
    exactly the keys status/utterances/error/audio_url/summary/
    summary_status/summary_error — in particular `object_key` is dropped. -/
def webhookFinalData (utts : List Utterance) (audio_url : Option String) :
    JobRecord :=
  ⟨"completed", some utts, none, audio_url, none, none, some "not_started",
   none, none, none, none, none⟩

/-- The `error_data` dict written when the post-completion transcript fetch
    fails: only `status` and `error` keys. -/
def webhookFetchFailData : JobRecord :=
  ⟨"failed", none, some "Failed to retrieve transcript data after completion.",
   none, none, none, none, none, none, none, none, none⟩

/-- The record written by the webhook `error` branch: keys
    status/utterances/error/audio_url/summary_status, with the payload's
    error message or the generic fallback (Python `or`, so an empty string
    also falls back). -/
def webhookErrorData (payloadError : Option String) : JobRecord :=
  ⟨"failed", none,
   some (match payloadError with
         | some e => if e = "" then
             "AssemblyAI processing failed with an unknown error." else e
         | none => "AssemblyAI processing failed with an unknown error."),
   none, none, none, some "failed", none, none, none, none, none⟩

/-- The webhook handler `assemblyai_webhook`
    (`src/backend/routers/transcription.py:164-291`).  Checks, in order:
    Redis availability (ack 200, no effect), server secret configured
    (500), header present/truthy (401), header equal to secret (403); only
    then dispatches on `payload.status`: on `completed` it fetches the
    transcript (the one external call), then overwrites the job record
    (synthesizing one if the job vanished) and enqueues the vector-store
    task; on fetch failure it overwrites with a failed record; on `error`
    it overwrites with a failed record; any other payload status is a
    no-op 200. -/
def assemblyai_webhook (env : WebhookEnv) (hdr : Option String)
    (payload : WebhookPayload) (store : Option JobRecord) : WebhookOut :=
  if ¬ env.redisOk then ⟨store, .ack200Internal, 0, []⟩
  else if ¬ strTruthy env.configuredSecret then
    ⟨store, .err500NotConfigured, 0, []⟩
  else if ¬ strTruthy hdr then ⟨store, .err401Missing, 0, []⟩
  else if hdr ≠ env.configuredSecret then ⟨store, .err403Invalid, 0, []⟩
  else if payload.status = "completed" then
    match env.fetchResult with
    | .error _ => ⟨some webhookFetchFailData, .ok200, 1, []⟩
    | .ok td =>
      match store with
      | none =>
        ⟨some (webhookFinalData td.utterances none), .ok200DataLost, 1,
         ["initialize_vector_store_task"]⟩
      | some cur =>
        let audio_url := match cur.object_key with
          | some k => generate_presigned_url env.r2ok env.presignUrl k
          | none => none
        ⟨some (webhookFinalData td.utterances audio_url), .ok200, 1,
         ["initialize_vector_store_task"]⟩
  else if payload.status = "error" then
    ⟨some (webhookErrorData payload.error), .ok200, 0, []⟩
  else ⟨store, .ok200, 0, []⟩

/-! ## Status distributor (`get_status`, `event_generator`) -/

/-- Outcome of the point status read. -/
inductive StatusResult
  | unavailable503
  | notFound404
  | ok (r : JobRecord)
deriving Repr, DecidableEq

/-- Point status read (`get_status`,
    `src/backend/routers/transcription.py:330-342`): 503 without Redis,
    404 when the key is absent, otherwise the record with `object_key`
    popped. -/
def get_status (redisOk : Bool) (store : Option JobRecord) : StatusResult :=
  if ¬ redisOk then .unavailable503
  else match store with
    | none => .notFound404
    | some r => .ok (stripInternal r)

/-- One server-sent event of the live stream. -/
inductive StreamEvent
  | record (r : JobRecord)
  | notFound
deriving Repr, DecidableEq

/-- Result of one iteration of the stream loop: events yielded and whether
    the loop polls again after the fixed sleep. -/
structure StreamStep where
  events : List StreamEvent
  again : Bool
deriving Repr, DecidableEq

/-- The fixed poll interval of the stream loop (`await asyncio.sleep(2)`). -/
def pollIntervalSeconds : Nat := 2

/-- One iteration of the `while True` loop of `event_generator`
    (`src/backend/routers/transcription.py:300-320`): stop silently when
    the client disconnected; otherwise read the key; when present, pop
    `object_key`, yield the record, and stop iff `status == "failed"` or
    `summary_status` is `"completed"` or `"failed"`; when absent, yield the
    terminal not-found event and stop. -/
def event_generator_step (disconnected : Bool) (store : Option JobRecord) :
    StreamStep :=
  if disconnected then ⟨[], false⟩
  else match store with
    | some r =>
      let pub := stripInternal r
      let stop := (pub.status == "failed") || (pub.summary_status == some "completed")
                    || (pub.summary_status == some "failed")
      ⟨[.record pub], !stop⟩
    | none => ⟨[.notFound], false⟩

/-! ## Summarize endpoint (`summarize_transcription`) -/

/-- HTTP outcome of the summarize endpoint. -/
inductive SummarizeResp
  | unavailable503
  | notFound404
  | notComplete400
  | already202
  | started202
deriving Repr, DecidableEq

/-- Result of the summarize endpoint: response, post-state, enqueued tasks. -/
structure SummarizeOut where
  resp : SummarizeResp
  store : Option JobRecord
  enqueued : List String
deriving Repr, DecidableEq

/-- The summarize endpoint (`summarize_transcription`,
    `src/backend/routers/transcription.py:125-155`): 503 without Redis,
    404 when absent, 400 unless `status == "completed"`, a distinct 202
    acceptance with no work when `summary_status` is already `"pending"`
    or `"completed"`, otherwise read-modify-write `summary_status :=
    "pending"` and enqueue the summarization task. -/
def summarize_transcription (redisOk : Bool) (store : Option JobRecord) :
    SummarizeOut :=
  if ¬ redisOk then ⟨.unavailable503, store, []⟩
  else match store with
    | none => ⟨.notFound404, store, []⟩
    | some cur =>
      if cur.status ≠ "completed" then ⟨.notComplete400, store, []⟩
      else if cur.summary_status = some "pending"
              ∨ cur.summary_status = some "completed" then
        ⟨.already202, store, []⟩
      else
        ⟨.started202, some { cur with summary_status := some "pending" },
         ["process_summarization_task"]⟩

/-! ## Transcription dispatcher (`process_transcription_task`) -/

/-- Environment of one dispatcher invocation
    (`src/backend/worker/tasks.py:30-179`): service availability, the
    diarization flag, configuration completeness for the AssemblyAI path,
    and oracles for the outcome of each external call. -/
structure DispatchEnv where
  redisOk : Bool
  r2ok : Bool
  enableDiarization : Bool
  diarConfigOk : Bool
  submitResult : Except String Unit
  groqClientOk : Bool
  groqResult : Except String String
  presignUrl : String → String

/-- The `task_data` dict written when R2 is unavailable in the worker:
    only `status` and `error`. -/
def dispatchR2FailData : JobRecord :=
  ⟨"failed", none, some "Object storage service (R2) not available in worker.",
   none, none, none, none, none, none, none, none, none⟩

/-- The `task_data` dict written by the dispatcher's `except` handler:
    keys status/utterances/error/summary_status. -/
def dispatchFailData (msg : String) : JobRecord :=
  ⟨"failed", none, some msg, none, none, none, some "failed", none,
   none, none, none, none⟩

/-- The completed record written by the synchronous (Groq) path: keys
    status/utterances/error/audio_url/summary/summary_status/summary_error,
    with the single whole-text utterance `{speaker: None, text}`. -/
def dispatchCompletedData (text : String) (audio_url : Option String) :
    JobRecord :=
  ⟨"completed", some [⟨none, text⟩], none, audio_url, none, none,
   some "not_started", none, none, none, none, none⟩

/-- The transcription dispatcher Celery task (`process_transcription_task`).
    Without Redis it does nothing; without R2 it writes a failed record.
    With diarization it validates configuration and submits to AssemblyAI
    (failure of either lands in the `except` handler, which writes a
    failed record); success writes nothing — completion is owned by the
    webhook.  Without diarization it transcribes via Groq, writes the
    completed record with a presigned `audio_url`, and enqueues the
    vector-store task; any failure writes a failed record. -/
def process_transcription_task (env : DispatchEnv) (object_key : String)
    (store : Option JobRecord) : Option JobRecord × List String :=
  if ¬ env.redisOk then (store, [])
  else if ¬ env.r2ok then (some dispatchR2FailData, [])
  else if env.enableDiarization then
    if ¬ env.diarConfigOk then
      (some (dispatchFailData
        "Processing failed: AssemblyAI settings (API Key, Backend URL, Webhook Secret) are not fully configured."), [])
    else match env.submitResult with
      | .ok _ => (store, [])
      | .error e => (some (dispatchFailData ("Processing failed: " ++ e)), [])
  else
    if ¬ env.groqClientOk then
      (some (dispatchFailData "Processing failed: Groq client not initialized."), [])
    else match env.groqResult with
      | .ok t =>
        (some (dispatchCompletedData t
          (generate_presigned_url env.r2ok env.presignUrl object_key)),
         ["initialize_vector_store_task"])
      | .error e => (some (dispatchFailData ("Processing failed: " ++ e)), [])

/-! ## Summarization stage (`process_summarization_task`) -/

/-- The record written by the success path of `process_summarization_task`:
    the snapshot read at the start of the task with `summary` and
    `summary_status` set (`task_data["summary"] = summary; ...`). -/
def summarizeFinalize (snapshot : JobRecord) (summary : String) : JobRecord :=
  { snapshot with summary := some summary, summary_status := some "completed" }

/-- The record written by the `except` handler of
    `process_summarization_task`: the freshly re-read record with
    `summary_status := "failed"` and the error message. -/
def summarizeFailData (cur : JobRecord) (msg : String) : JobRecord :=
  { cur with summary_status := some "failed",
             summary_error := some ("Summarization failed: " ++ msg) }

/-- The summarization Celery task (`process_summarization_task`,
    `src/backend/worker/tasks.py:182-250`) as a sequential (no concurrent
    interleaving) state transformer.  It reads the record ONCE at the
    start; guards raise into the `except` handler, which re-reads and
    writes `summary_status := "failed"`; on success it writes the start
    snapshot extended with the summary (`generate_summary` is the external
    call, modelled by the `genResult` oracle). -/
def process_summarization_task (redisOk : Bool)
    (genResult : Except String String) (store : Option JobRecord) :
    Option JobRecord :=
  if ¬ redisOk then store
  else match store with
    | none => store
    | some cur =>
      if cur.status ≠ "completed" then
        some (summarizeFailData cur "Transcription is not complete, cannot summarize.")
      else if ¬ uttsTruthy cur.utterances then
        some (summarizeFailData cur "No utterances found to summarize.")
      else match genResult with
        | .ok s => some (summarizeFinalize cur s)
        | .error e => some (summarizeFailData cur e)

/-! ## Knowledge-base indexer (`vector_store.py`, `rag_tasks.py`, `chat.py`) -/

/-- A langchain `Document` (and equally a chunk produced by
    `split_documents`): page content plus the metadata
    `add_transcript_to_collection` attaches to transcript utterances. -/
structure Document where
  page_content : String
  source : String
  task_id : String
  speaker : Option String
  utterance_index : Nat
  document_type : String
deriving Repr, DecidableEq

/-- Whitespace test of Python `str.strip()`'s default character set
    (space, tab, newline, carriage return, form feed, vertical tab). -/
def isPySpace (c : Char) : Bool :=
  c = ' ' || c = '\t' || c = '\n' || c = '\r' || c = '\x0c' || c = '\x0b'

/-- Python `text.strip()`: drop leading and trailing whitespace. -/
def pyStrip (s : String) : String :=
  ⟨((s.data.dropWhile isPySpace).reverse.dropWhile isPySpace).reverse⟩

/-- The documents built from a transcript's utterances
    (`add_transcript_to_collection`,
    `src/backend/core/vector_store.py:148-168`): enumerate the utterances,
    skip those whose text is blank, and tag each with source metadata.
    (The dict lookup `utterance.get("speaker", "Unknown")` never takes its
    default for records this pipeline stores, whose utterance dicts always
    carry a `speaker` key, possibly null.) -/
def transcriptDocuments (task_id : String) (utts : List Utterance) :
    List Document :=
  utts.enum.filterMap fun p =>
    if pyStrip p.2.text = "" then none
    else some ⟨p.2.text, "transcript", task_id, p.2.speaker, p.1, "transcript"⟩

/-- Adds a transcript to a FAISS collection
    (`add_transcript_to_collection`): load-or-create the collection
    (absent ↦ empty), build the documents, return unchanged with count 0
    when no document survives, otherwise split into chunks (the external
    `RecursiveCharacterTextSplitter`, modelled by the pure `split`
    parameter) and append them to the collection.  Returns the new
    collection contents and `len(chunks)`. -/
def add_transcript_to_collection (split : List Document → List Document)
    (coll : Option (List Document)) (utts : List Utterance)
    (task_id : String) : List Document × Nat :=
  let docs := transcriptDocuments task_id utts
  if docs = [] then (coll.getD [], 0)
  else
    let chunks := split docs
    (coll.getD [] ++ chunks, chunks.length)

/-- Collection statistics (`get_collection_stats`): `document_count` is
    `vector_store.index.ntotal`, the number of stored vectors — one per
    chunk ever added. -/
def get_collection_stats (coll : Option (List Document)) : Nat :=
  (coll.getD []).length

/-- Environment of one indexer invocation: Redis availability, the chunk
    splitter, and the outcome of the fallible external work inside
    `add_transcript_to_collection` (embedding calls, index I/O). -/
structure IndexEnv where
  redisOk : Bool
  split : List Document → List Document
  addOutcome : Except String Unit

/-- The record written by the indexer's success path: the snapshot with
    `rag_ready/rag_collection/rag_chunks` set
    (`src/backend/worker/rag_tasks.py:73-77`). -/
def indexSuccessData (cur : JobRecord) (task_id : String) (chunks : Nat) :
    JobRecord :=
  { cur with rag_ready := some true,
             rag_collection := some ("chat_" ++ task_id),
             rag_chunks := some chunks }

/-- The record written by the indexer's `except` handler: the re-read
    record with `rag_ready := false` and the error
    (`src/backend/worker/rag_tasks.py:97-105`). -/
def indexFailData (cur : JobRecord) (msg : String) : JobRecord :=
  { cur with rag_ready := some false, rag_error := some msg }

/-- The vector-store initialization Celery task
    (`initialize_vector_store_task`, `src/backend/worker/rag_tasks.py:12-111`)
    as a sequential state transformer over the job record and the job's
    collection.  Early returns (no Redis, record absent, not completed, no
    utterances) write nothing; otherwise it adds the transcript to the
    collection `chat_{task_id}` — on failure the handler writes
    `rag_ready=false` with the error and the collection is unchanged; on
    success it writes the rag fields onto the record. -/
def init_vector_store_task (env : IndexEnv) (task_id : String)
    (store : Option JobRecord) (coll : Option (List Document)) :
    Option JobRecord × Option (List Document) :=
  if ¬ env.redisOk then (store, coll)
  else match store with
    | none => (store, coll)
    | some cur =>
      if cur.status ≠ "completed" then (store, coll)
      else if ¬ uttsTruthy cur.utterances then (store, coll)
      else
        let us := cur.utterances.getD []
        match env.addOutcome with
        | .error e => (some (indexFailData cur e), coll)
        | .ok _ =>
          let r := add_transcript_to_collection env.split coll us task_id
          (some (indexSuccessData cur task_id r.2), some r.1)

/-- HTTP outcome of the knowledge-base initialize endpoint. -/
inductive InitKBResp
  | unavailable503
  | notFound404
  | notComplete400
  | noContent400
  | err500
  | created201 (chunks : Nat)
deriving Repr, DecidableEq

/-- The manual knowledge-base initialize endpoint
    (`initialize_knowledge_base`, `src/backend/routers/chat.py:45-119`):
    the same guards as the indexer task but surfaced as HTTP errors, the
    same `add_transcript_to_collection` call on the same collection name
    `chat_{task_id}`, and no write to the job record itself (it only
    stores the chat-session key).  Returns the response and the new
    collection contents. -/
def init_knowledge_base (redisOk : Bool) (addOutcome : Except String Unit)
    (split : List Document → List Document) (task_id : String)
    (store : Option JobRecord) (coll : Option (List Document)) :
    InitKBResp × Option (List Document) :=
  if ¬ redisOk then (.unavailable503, coll)
  else match store with
    | none => (.notFound404, coll)
    | some cur =>
      if cur.status ≠ "completed" then (.notComplete400, coll)
      else if ¬ uttsTruthy cur.utterances then (.noContent400, coll)
      else match addOutcome with
        | .error _ => (.err500, coll)
        | .ok _ =>
          let r := add_transcript_to_collection split coll
                     (cur.utterances.getD []) task_id
          (.created201 r.2, some r.1)

/-! ## Operation sequences over one job's record -/

/-- One operation that can touch a job's Redis record: a dispatcher run, an
    authenticated-or-not webhook callback, the summarize endpoint, the
    summarization task, or the indexer task (each with the environment of
    that invocation). -/
inductive JobOp
  | dispatch (env : DispatchEnv) (object_key : String)
  | webhook (env : WebhookEnv) (hdr : Option String) (payload : WebhookPayload)
  | summarizeEndpoint (redisOk : Bool)
  | summarizeTask (redisOk : Bool) (genResult : Except String String)
  | indexTask (env : IndexEnv) (task_id : String)
deriving Inhabited

/-- The effect of one operation on the job's Redis value (the collection
    and response channels of each operation are projected away). -/
def applyOp (op : JobOp) (s : Option JobRecord) : Option JobRecord :=
  match op with
  | .dispatch env key => (process_transcription_task env key s).1
  | .webhook env hdr payload => (assemblyai_webhook env hdr payload s).store
  | .summarizeEndpoint redisOk => (summarize_transcription redisOk s).store
  | .summarizeTask redisOk gen => process_summarization_task redisOk gen s
  | .indexTask env tid => (init_vector_store_task env tid s none).1

/-- A transcription status is terminal when it is `completed` or `failed`. -/
def isTerminal (st : String) : Prop := st = "completed" ∨ st = "failed"

instance (st : String) : Decidable (isTerminal st) := by
  unfold isTerminal; infer_instance

/-- Terminality of whatever record the store holds (vacuous when absent). -/
def storeTerminal (s : Option JobRecord) : Prop :=
  ∀ j, s = some j → isTerminal j.status

/-! ## The §5 race schedule between summarization and the indexer -/

/-- The read `process_summarization_task` performs at its start
    (`task_json = redis_client.get(task_id)` on line 195, before the
    external `generate_summary` call). -/
def summarizeRead (store : Option JobRecord) : Option JobRecord := store

/-- The interleaved schedule of §5: the summarization task reads its
    snapshot at the start, suspends at the external `generate_summary`
    call, the indexer task runs to completion during that suspension, and
    then the summarization task performs its final write — which stores
    `summarizeFinalize snapshot summary`, built from the snapshot, as a
    full-value overwrite of whatever the store holds by then.  Returns the
    store after the indexer's write and the final store. -/
def summarizeIndexInterleaving (ienv : IndexEnv) (task_id summary : String)
    (s0 : Option JobRecord) : Option JobRecord × Option JobRecord :=
  match summarizeRead s0 with
  | none => (s0, s0)
  | some snapshot =>
    let mid := (init_vector_store_task ienv task_id s0 none).1
    (mid, some (summarizeFinalize snapshot summary))

/-! ## Sample records used by witnesses and counterexamples -/

/-- A freshly created job record (`initial_data` in `create_transcription`):
    pending, with the internal `object_key` set. -/
def jobPendingK : JobRecord :=
  ⟨"pending", none, none, none, some "abc.mp3", none, none, none,
   none, none, none, none⟩

/-- A completed job record as written by the synchronous dispatcher path. -/
def jobCompletedK : JobRecord :=
  ⟨"completed", some [⟨none, "hello world"⟩], none, some "https://r2/abc.mp3",
   none, none, some "not_started", none, none, none, none, none⟩

/-- A completed job whose summarization is in flight
    (`summary_status = "pending"`), before any indexer write. -/
def jobSummarizingK : JobRecord :=
  ⟨"completed", some [⟨none, "hello world"⟩], none, some "https://r2/abc.mp3",
   none, none, some "pending", none, none, none, none, none⟩

/-! ## Claim theorems -/

/-- Claim C1: with Redis up and a (non-empty) secret configured, a webhook
    call whose shared-secret header is falsy (absent or empty — Python
    `if not x_webhook_secret`) is rejected 401, and one whose header does
    not equal the configured secret is rejected 403; in both cases the job
    store value is returned unchanged, zero external transcript fetches are
    issued and no task is enqueued, for every payload — including one
    claiming completion. -/
theorem c1_webhook_auth_rejected_without_effect
    (env : WebhookEnv) (hdr : Option String) (payload : WebhookPayload)
    (store : Option JobRecord)
    (hredis : env.redisOk = true)
    (hsec : strTruthy env.configuredSecret = true) :
    (strTruthy hdr = false →
      assemblyai_webhook env hdr payload store =
        ⟨store, .err401Missing, 0, []⟩) ∧
    (strTruthy hdr = true → hdr ≠ env.configuredSecret →
      assemblyai_webhook env hdr payload store =
        ⟨store, .err403Invalid, 0, []⟩) := by
  constructor
  · intro h
    simp [assemblyai_webhook, hredis, hsec, h]
  · intro h hne
    simp [assemblyai_webhook, hredis, hsec, h, hne]

/-- Witness for C1 at a concrete completion-claiming payload: a missing
    header yields 401 and a wrong header yields 403, each leaving the
    stored pending record in place with no fetch and no enqueue. -/
theorem c1_webhook_auth_rejected_without_effect_w :
    (assemblyai_webhook ⟨true, some "s3cret", .ok ⟨[]⟩, true, id⟩ none
        ⟨"tid", "completed", none⟩ (some jobPendingK) =
      ⟨some jobPendingK, .err401Missing, 0, []⟩) ∧
    (assemblyai_webhook ⟨true, some "s3cret", .ok ⟨[]⟩, true, id⟩ (some "wrong")
        ⟨"tid", "completed", none⟩ (some jobPendingK) =
      ⟨some jobPendingK, .err403Invalid, 0, []⟩) :=
  ⟨(c1_webhook_auth_rejected_without_effect _ none ⟨"tid", "completed", none⟩
      (some jobPendingK) rfl (by decide)).1 (by decide),
   (c1_webhook_auth_rejected_without_effect _ (some "wrong")
      ⟨"tid", "completed", none⟩ (some jobPendingK) rfl (by decide)).2
      (by decide) (by decide)⟩

/-- Claim C5: with Redis and R2 available, diarization disabled, and the
    synchronous Groq provider returning transcript text `t`, the
    dispatcher writes the record with `status = "completed"`,
    `utterances = [{speaker: null, text: t}]`,
    `summary_status = "not_started"` and a non-null presigned `audio_url`,
    and enqueues the vector-store initialization task. -/
theorem c5_sync_dispatch_completes
    (env : DispatchEnv) (object_key : String) (store : Option JobRecord)
    (t : String)
    (h1 : env.redisOk = true) (h2 : env.r2ok = true)
    (h3 : env.enableDiarization = false) (h4 : env.groqClientOk = true)
    (h5 : env.groqResult = .ok t) :
    process_transcription_task env object_key store =
      (some (dispatchCompletedData t (some (env.presignUrl object_key))),
       ["initialize_vector_store_task"]) ∧
    (dispatchCompletedData t (some (env.presignUrl object_key))).status =
      "completed" ∧
    (dispatchCompletedData t (some (env.presignUrl object_key))).utterances =
      some [⟨none, t⟩] ∧
    (dispatchCompletedData t
        (some (env.presignUrl object_key))).summary_status =
      some "not_started" ∧
    (dispatchCompletedData t (some (env.presignUrl object_key))).audio_url ≠
      none := by
  refine ⟨?_, rfl, rfl, rfl, by simp [dispatchCompletedData]⟩
  simp [process_transcription_task, h1, h2, h3, h4, h5,
        generate_presigned_url]

/-- Witness for C5: provider text `"hello world"` on a concrete
    environment produces exactly the completed record of the scenario. -/
theorem c5_sync_dispatch_completes_w :
    process_transcription_task
        ⟨true, true, false, true, .ok (), true, .ok "hello world",
         fun k => "https://r2/" ++ k⟩ "abc.mp3" (some jobPendingK) =
      (some (dispatchCompletedData "hello world" (some "https://r2/abc.mp3")),
       ["initialize_vector_store_task"]) ∧
    (dispatchCompletedData "hello world" (some "https://r2/abc.mp3")).utterances =
      some [⟨none, "hello world"⟩] :=
  ⟨(c5_sync_dispatch_completes
      ⟨true, true, false, true, .ok (), true, .ok "hello world",
       fun k => "https://r2/" ++ k⟩ "abc.mp3" (some jobPendingK)
      "hello world" rfl rfl rfl rfl rfl).1,
   (c5_sync_dispatch_completes
      ⟨true, true, false, true, .ok (), true, .ok "hello world",
       fun k => "https://r2/" ++ k⟩ "abc.mp3" (some jobPendingK)
      "hello world" rfl rfl rfl rfl rfl).2.2.1⟩

/-- Claim C9: when the indexer's external work fails on a completed job
    with utterances, the task writes the record with `rag_ready = false`
    and the error message, leaves the collection unchanged, and the job's
    `status` stays `"completed"` — the parent transcription job is never
    marked failed by an indexing failure. -/
theorem c9_index_failure_preserves_completed
    (env : IndexEnv) (task_id : String) (cur : JobRecord)
    (coll : Option (List Document)) (e : String)
    (hredis : env.redisOk = true) (hc : cur.status = "completed")
    (hu : uttsTruthy cur.utterances = true)
    (hfail : env.addOutcome = .error e) :
    (init_vector_store_task env task_id (some cur) coll).1 =
      some (indexFailData cur e) ∧
    (indexFailData cur e).status = "completed" ∧
    (indexFailData cur e).rag_ready = some false ∧
    (indexFailData cur e).rag_error = some e ∧
    (init_vector_store_task env task_id (some cur) coll).2 = coll := by
  refine ⟨?_, by simp [indexFailData, hc], rfl, rfl, ?_⟩ <;>
    simp [init_vector_store_task, hredis, hc, hu, hfail]

/-- Witness for C9: a concrete embedding failure on a completed job flags
    `rag_ready = false` with the error while the status stays completed. -/
theorem c9_index_failure_preserves_completed_w :
    (init_vector_store_task ⟨true, fun ds => ds, .error "embedding down"⟩
        "t1" (some jobCompletedK) none).1 =
      some (indexFailData jobCompletedK "embedding down") ∧
    (indexFailData jobCompletedK "embedding down").status = "completed" :=
  ⟨(c9_index_failure_preserves_completed
      ⟨true, fun ds => ds, .error "embedding down"⟩ "t1" jobCompletedK
      none "embedding down" rfl rfl (by decide) rfl).1,
   (c9_index_failure_preserves_completed
      ⟨true, fun ds => ds, .error "embedding down"⟩ "t1" jobCompletedK
      none "embedding down" rfl rfl (by decide) rfl).2.1⟩



/-! ## Helper lemmas about webhook writes -/

lemma webhookFinalData_status (utts : List Utterance) (url : Option String) :
    (webhookFinalData utts url).status = "completed" := rfl

lemma webhookErrorData_status (pe : Option String) :
    (webhookErrorData pe).status = "failed" := rfl

lemma webhookFetchFailData_status : webhookFetchFailData.status = "failed" :=
  rfl

/-- Every possible job-store outcome of a webhook call: unchanged, the
    fetch-failure record, a completion record, or the error record. -/
lemma webhook_store_cases (env : WebhookEnv) (hdr : Option String)
    (payload : WebhookPayload) (store : Option JobRecord) :
    (assemblyai_webhook env hdr payload store).store = store ∨
    (assemblyai_webhook env hdr payload store).store =
      some webhookFetchFailData ∨
    (∃ utts url, (assemblyai_webhook env hdr payload store).store =
      some (webhookFinalData utts url)) ∨
    (assemblyai_webhook env hdr payload store).store =
      some (webhookErrorData payload.error) := by
  unfold assemblyai_webhook
  cases henv : env.fetchResult with
  | error e =>
    cases store <;> split_ifs <;>
      first
        | exact Or.inl rfl
        | exact Or.inr (Or.inl rfl)
        | exact Or.inr (Or.inr (Or.inl ⟨_, _, rfl⟩))
        | exact Or.inr (Or.inr (Or.inr rfl))
  | ok td =>
    cases store <;> split_ifs <;>
      first
        | exact Or.inl rfl
        | exact Or.inr (Or.inl rfl)
        | exact Or.inr (Or.inr (Or.inl ⟨_, _, rfl⟩))
        | exact Or.inr (Or.inr (Or.inr rfl))

/-- When the transcript fetch succeeds and the payload claims completion,
    the webhook either leaves the store unchanged (rejection paths) or
    writes a completion record. -/
lemma webhook_store_cases_ok (env : WebhookEnv) (hdr : Option String)
    (payload : WebhookPayload) (store : Option JobRecord)
    (td : TranscriptData) (hfetch : env.fetchResult = .ok td)
    (hp : payload.status = "completed") :
    (assemblyai_webhook env hdr payload store).store = store ∨
    ∃ utts url, (assemblyai_webhook env hdr payload store).store =
      some (webhookFinalData utts url) := by
  unfold assemblyai_webhook
  rw [hfetch]
  cases store <;> split_ifs <;>
    first
      | exact Or.inl rfl
      | exact Or.inr ⟨_, _, rfl⟩
      | exact absurd hp ‹_›

/-- Counterexample to claim C4 as stated: a job stored with status
    `"completed"` receives an authenticated duplicate completion callback,
    but the post-completion transcript re-fetch fails — the handler
    overwrites the record with `error_data`, whose status is `"failed"`:
    the job IS reverted to failed. -/
theorem c4_duplicate_completion_cex :
    jobCompletedK.status = "completed" ∧
    (assemblyai_webhook ⟨true, some "s3cret", .error "timeout", true, id⟩
        (some "s3cret") ⟨"tid", "completed", none⟩
        (some jobCompletedK)).store = some webhookFetchFailData ∧
    webhookFetchFailData.status = "failed" := by
  refine ⟨rfl, ?_, rfl⟩
  simp [assemblyai_webhook, strTruthy]

/-- Claim C4 (amended): for a job stored as `"completed"`, a second
    callback with payload status `"completed"` leaves the status
    `"completed"` whenever the external transcript re-fetch succeeds (and
    also whenever the callback is rejected, since then nothing is
    written); when the re-fetch fails the handler overwrites the status to
    `"failed"`; in no case does the status become `"pending"`. -/
theorem c4_duplicate_completion_keeps_completed
    (env : WebhookEnv) (hdr : Option String) (payload : WebhookPayload)
    (cur : JobRecord)
    (hc : cur.status = "completed") (hp : payload.status = "completed") :
    (∀ td, env.fetchResult = .ok td →
      ∀ j, (assemblyai_webhook env hdr payload (some cur)).store = some j →
        j.status = "completed") ∧
    (∀ j, (assemblyai_webhook env hdr payload (some cur)).store = some j →
      j.status ≠ "pending") := by
  constructor
  · intro td hfetch j hj
    rcases webhook_store_cases_ok env hdr payload (some cur) td hfetch hp with
      h | ⟨utts, url, h⟩
    · rw [h] at hj
      cases hj
      exact hc
    · rw [h] at hj
      cases hj
      exact webhookFinalData_status utts url
  · intro j hj
    rcases webhook_store_cases env hdr payload (some cur) with
      h | h | ⟨utts, url, h⟩ | h <;> rw [h] at hj <;> cases hj
    · rw [hc]; decide
    · rw [webhookFetchFailData_status]; decide
    · rw [webhookFinalData_status]; decide
    · rw [webhookErrorData_status]; decide

/-- Witness for C4 (amended): a successful duplicate completion callback
    on a completed job writes the completion record, whose stored status
    is `"completed"`. -/
theorem c4_duplicate_completion_keeps_completed_w :
    (webhookFinalData [⟨some "A", "hi"⟩] none).status = "completed" :=
  (c4_duplicate_completion_keeps_completed
      ⟨true, some "s3cret", .ok ⟨[⟨some "A", "hi"⟩]⟩, true, id⟩
      (some "s3cret") ⟨"tid", "completed", none⟩ jobCompletedK rfl rfl).1
    ⟨[⟨some "A", "hi"⟩]⟩ rfl (webhookFinalData [⟨some "A", "hi"⟩] none)
    (by simp [assemblyai_webhook, strTruthy, jobCompletedK])

/-! ## Helper lemmas for the operation model -/

lemma dispatch_store_cases (env : DispatchEnv) (key : String)
    (s : Option JobRecord) :
    (process_transcription_task env key s).1 = s ∨
    ∃ j, (process_transcription_task env key s).1 = some j ∧
      isTerminal j.status := by
  unfold process_transcription_task
  cases hsub : env.submitResult <;> cases hgro : env.groqResult <;>
    split_ifs <;>
      first
        | exact Or.inl rfl
        | exact Or.inr ⟨_, rfl, Or.inl rfl⟩
        | exact Or.inr ⟨_, rfl, Or.inr rfl⟩

lemma summarize_endpoint_store_cases (r : Bool) (s : Option JobRecord) :
    (summarize_transcription r s).store = s ∨
    ∃ cur, s = some cur ∧ (summarize_transcription r s).store =
      some { cur with summary_status := some "pending" } := by
  unfold summarize_transcription
  cases s <;> dsimp only <;> split_ifs <;>
    first
      | exact Or.inl rfl
      | exact Or.inr ⟨_, rfl, rfl⟩

lemma summarize_task_store_cases (r : Bool) (gen : Except String String)
    (s : Option JobRecord) :
    process_summarization_task r gen s = s ∨
    ∃ cur j, s = some cur ∧ process_summarization_task r gen s = some j ∧
      j.status = cur.status := by
  unfold process_summarization_task
  cases s <;> cases hg : gen <;> dsimp only <;> split_ifs <;>
    first
      | exact Or.inl rfl
      | exact Or.inr ⟨_, _, rfl, rfl, rfl⟩

lemma index_task_store_cases (env : IndexEnv) (tid : String)
    (s : Option JobRecord) (coll : Option (List Document)) :
    (init_vector_store_task env tid s coll).1 = s ∨
    ∃ cur j, s = some cur ∧
      (init_vector_store_task env tid s coll).1 = some j ∧
      j.status = cur.status := by
  unfold init_vector_store_task
  cases s <;> cases hao : env.addOutcome <;> dsimp only <;> split_ifs <;>
    first
      | exact Or.inl rfl
      | exact Or.inr ⟨_, _, rfl, rfl, rfl⟩

/-- No single operation can take the store from a terminal transcription
    status to a non-terminal one: every record an operation writes has a
    terminal status or preserves the current one. -/
lemma applyOp_terminal (op : JobOp) (s : Option JobRecord)
    (h : storeTerminal s) : storeTerminal (applyOp op s) := by
  intro j hj
  cases op with
  | dispatch env key =>
    simp only [applyOp] at hj
    rcases dispatch_store_cases env key s with he | ⟨j0, he, ht⟩
    · rw [he] at hj
      exact h j hj
    · rw [he] at hj
      exact (Option.some.inj hj) ▸ ht
  | webhook env hdr payload =>
    simp only [applyOp] at hj
    rcases webhook_store_cases env hdr payload s with
      he | he | ⟨utts, url, he⟩ | he
    · rw [he] at hj
      exact h j hj
    · rw [he] at hj
      rw [← Option.some.inj hj, webhookFetchFailData_status]
      exact Or.inr rfl
    · rw [he] at hj
      rw [← Option.some.inj hj, webhookFinalData_status]
      exact Or.inl rfl
    · rw [he] at hj
      rw [← Option.some.inj hj, webhookErrorData_status]
      exact Or.inr rfl
  | summarizeEndpoint r =>
    simp only [applyOp] at hj
    rcases summarize_endpoint_store_cases r s with he | ⟨cur, hcur, he⟩
    · rw [he] at hj
      exact h j hj
    · rw [he] at hj
      rw [← Option.some.inj hj]
      exact h cur hcur
  | summarizeTask r gen =>
    simp only [applyOp] at hj
    rcases summarize_task_store_cases r gen s with he | ⟨cur, j0, hcur, he, hst⟩
    · rw [he] at hj
      exact h j hj
    · rw [he] at hj
      rw [← Option.some.inj hj]
      unfold isTerminal
      rw [hst]
      exact h cur hcur
  | indexTask env tid =>
    simp only [applyOp] at hj
    rcases index_task_store_cases env tid s none with he | ⟨cur, j0, hcur, he, hst⟩
    · rw [he] at hj
      exact h j hj
    · rw [he] at hj
      rw [← Option.some.inj hj]
      unfold isTerminal
      rw [hst]
      exact h cur hcur

/-- Counterexample to claim C2 as stated: a job whose stored status is
    `"completed"` receives an authenticated webhook callback with payload
    status `"error"` — the handler overwrites the record unconditionally
    and the status changes to `"failed"`. -/
theorem c2_status_monotonic_cex :
    jobCompletedK.status = "completed" ∧
    applyOp (.webhook ⟨true, some "s3cret", .ok ⟨[]⟩, true, id⟩
        (some "s3cret") ⟨"tid", "error", some "boom"⟩)
      (some jobCompletedK) = some (webhookErrorData (some "boom")) ∧
    (webhookErrorData (some "boom")).status = "failed" := by
  refine ⟨rfl, ?_, rfl⟩
  simp [applyOp, assemblyai_webhook, strTruthy]

/-- Claim C2 (amended): once a job's status is terminal (`completed` or
    `failed`), every sequence of operations (dispatcher write, webhook
    callback, summarize endpoint, summarization task, indexer task) keeps
    it terminal — it never returns to `pending` — but an authenticated
    webhook callback may switch between the two terminal values: a payload
    with status `error`, or a completion payload whose transcript re-fetch
    fails, overwrites the status to `failed`, and a completion payload
    with a successful re-fetch overwrites it to `completed`. -/
theorem c2_terminal_status_stays_terminal (ops : List JobOp)
    (s : Option JobRecord) (h : storeTerminal s) :
    storeTerminal (ops.foldl (fun t op => applyOp op t) s) := by
  induction ops generalizing s with
  | nil => exact h
  | cons op rest ih => exact ih (applyOp op s) (applyOp_terminal op s h)

/-- Witness for C2 (amended): a concrete sequence — error callback, then
    summarization, then indexing — applied to a completed job leaves the
    status terminal. -/
theorem c2_terminal_status_stays_terminal_w :
    storeTerminal (List.foldl (fun t op => applyOp op t)
      (some jobCompletedK)
      [JobOp.webhook ⟨true, some "s3cret", .ok ⟨[]⟩, true, id⟩
         (some "s3cret") ⟨"tid", "error", some "boom"⟩,
       JobOp.summarizeTask true (.ok "a summary"),
       JobOp.indexTask ⟨true, fun ds => ds, .ok ()⟩ "t1"]) :=
  c2_terminal_status_stays_terminal _ _
    (fun j hj => by cases hj; exact Or.inl rfl)

/-- Counterexample to claim C3 as stated: the summarization task reads the
    job record at its start and only then performs the external
    `generate_summary` call; when the indexer completes during that call
    and writes `rag_ready`/`rag_collection`, the summarization write — a
    full-value overwrite built from the stale snapshot — erases them: the
    fields are NOT present in the record after the summarization write. -/
theorem c3_summarize_read_not_before_write_cex :
    (summarizeIndexInterleaving ⟨true, fun ds => ds, .ok ()⟩ "t1"
        "a summary" (some jobSummarizingK)).1 =
      some (indexSuccessData jobSummarizingK "t1" 1) ∧
    (indexSuccessData jobSummarizingK "t1" 1).rag_ready = some true ∧
    (indexSuccessData jobSummarizingK "t1" 1).rag_collection =
      some "chat_t1" ∧
    (summarizeIndexInterleaving ⟨true, fun ds => ds, .ok ()⟩ "t1"
        "a summary" (some jobSummarizingK)).2 =
      some (summarizeFinalize jobSummarizingK "a summary") ∧
    (summarizeFinalize jobSummarizingK "a summary").rag_ready = none ∧
    (summarizeFinalize jobSummarizingK "a summary").rag_collection =
      none := by
  refine ⟨?_, rfl, rfl, rfl, rfl, rfl⟩
  simp [summarizeIndexInterleaving, summarizeRead, init_vector_store_task,
        jobSummarizingK, uttsTruthy, add_transcript_to_collection,
        transcriptDocuments, indexSuccessData]
  decide

/-- Claim C3 (amended): the summarization stage reads the job record once
    at its start, before the external summary-generation call, and its
    final write overwrites the store with that snapshot extended by the
    summary fields; consequently the write carries the snapshot's values
    of `rag_ready` and `rag_collection` regardless of what the indexer
    wrote to the store between the read and the write — a field the
    indexer mutated concurrently in that window is lost.  (Only the
    failure path of the task re-reads immediately before writing.) -/
theorem c3_summarize_write_clobbers_concurrent_fields
    (ienv : IndexEnv) (task_id summary : String) (s0 : Option JobRecord)
    (snap : JobRecord) (h : summarizeRead s0 = some snap) :
    (summarizeIndexInterleaving ienv task_id summary s0).2 =
      some (summarizeFinalize snap summary) ∧
    (summarizeFinalize snap summary).rag_ready = snap.rag_ready ∧
    (summarizeFinalize snap summary).rag_collection =
      snap.rag_collection := by
  refine ⟨?_, rfl, rfl⟩
  unfold summarizeIndexInterleaving
  rw [h]

/-- Witness for C3 (amended) on the concrete race of the counterexample:
    the final record is the snapshot plus the summary fields. -/
theorem c3_summarize_write_clobbers_concurrent_fields_w :
    (summarizeIndexInterleaving ⟨true, fun ds => ds, .ok ()⟩ "t1"
        "a summary" (some jobSummarizingK)).2 =
      some (summarizeFinalize jobSummarizingK "a summary") :=
  (c3_summarize_write_clobbers_concurrent_fields
    ⟨true, fun ds => ds, .ok ()⟩ "t1" "a summary" (some jobSummarizingK)
    jobSummarizingK rfl).1

/-- Claim C6: with the store service up, the summarize endpoint enqueues a
    summarization task iff the job exists, its status is `"completed"`,
    and its `summary_status` is neither `"pending"` nor `"completed"`;
    it returns 404 when the job is absent, 400 when the status is not
    `"completed"`, and for a job whose `summary_status` is already
    `"pending"` or `"completed"` it returns the distinct acceptance
    response with nothing enqueued and the store unchanged. -/
theorem c6_summarize_enqueue_characterization (store : Option JobRecord) :
    ((summarize_transcription true store).enqueued ≠ [] ↔
      ∃ cur, store = some cur ∧ cur.status = "completed" ∧
        cur.summary_status ≠ some "pending" ∧
        cur.summary_status ≠ some "completed") ∧
    (store = none →
      summarize_transcription true store = ⟨.notFound404, store, []⟩) ∧
    (∀ cur, store = some cur → cur.status ≠ "completed" →
      summarize_transcription true store = ⟨.notComplete400, store, []⟩) ∧
    (∀ cur, store = some cur → cur.status = "completed" →
      (cur.summary_status = some "pending" ∨
        cur.summary_status = some "completed") →
      summarize_transcription true store = ⟨.already202, store, []⟩) ∧
    (∀ cur, store = some cur → cur.status = "completed" →
      cur.summary_status ≠ some "pending" →
      cur.summary_status ≠ some "completed" →
      summarize_transcription true store =
        ⟨.started202, some { cur with summary_status := some "pending" },
         ["process_summarization_task"]⟩) ∧
    SummarizeResp.already202 ≠ SummarizeResp.started202 := by
  refine ⟨?_, ?_, ?_, ?_, ?_, by decide⟩
  · cases store with
    | none => simp [summarize_transcription]
    | some cur =>
      by_cases h1 : cur.status = "completed"
      · by_cases h2p : cur.summary_status = some "pending"
        · simp [summarize_transcription, h1, h2p]
        · by_cases h2c : cur.summary_status = some "completed"
          · simp [summarize_transcription, h1, h2p, h2c]
          · simp [summarize_transcription, h1, h2p, h2c]
      · simp [summarize_transcription, h1]
  · rintro rfl
    rfl
  · rintro cur rfl h1
    simp [summarize_transcription, h1]
  · rintro cur rfl h1 h2
    rcases h2 with h2 | h2 <;> simp [summarize_transcription, h1, h2]
  · rintro cur rfl h1 h2 h3
    simp [summarize_transcription, h1, h2, h3]

/-- Witness for C6: on a concrete completed job with `summary_status`
    absent the endpoint starts the task, and with `summary_status`
    `"pending"` it answers the distinct acceptance without enqueuing. -/
theorem c6_summarize_enqueue_characterization_w :
    summarize_transcription true (some jobCompletedK) =
      ⟨.started202,
       some { jobCompletedK with summary_status := some "pending" },
       ["process_summarization_task"]⟩ ∧
    summarize_transcription true (some jobSummarizingK) =
      ⟨.already202, some jobSummarizingK, []⟩ :=
  ⟨((c6_summarize_enqueue_characterization
       (some jobCompletedK)).2.2.2.2.1) jobCompletedK rfl rfl
     (by decide) (by decide),
   ((c6_summarize_enqueue_characterization
       (some jobSummarizingK)).2.2.2.1) jobSummarizingK rfl rfl
     (Or.inl rfl)⟩

/-- Claim C7: one iteration of the live status stream stops iff the client
    disconnected, the record is absent, the observed `status` is
    `"failed"`, or the observed `summary_status` is `"completed"` or
    `"failed"`; when the record is absent (and the client is connected) it
    first emits the single terminal not-found event; in every other
    observed state — including `status = "completed"` with
    `summary_status` not yet terminal — it emits the stripped record and
    polls again after the fixed 2-second interval. -/
theorem c7_stream_termination (d : Bool) (s : Option JobRecord) :
    ((event_generator_step d s).again = false ↔
      (d = true ∨ s = none ∨ ∃ r, s = some r ∧ (r.status = "failed" ∨
        r.summary_status = some "completed" ∨
        r.summary_status = some "failed"))) ∧
    (d = false → s = none →
      event_generator_step d s = ⟨[.notFound], false⟩) ∧
    (∀ r, d = false → s = some r → r.status ≠ "failed" →
      r.summary_status ≠ some "completed" →
      r.summary_status ≠ some "failed" →
      event_generator_step d s = ⟨[.record (stripInternal r)], true⟩) ∧
    pollIntervalSeconds = 2 := by
  refine ⟨?_, ?_, ?_, rfl⟩
  · cases d with
    | true => simp [event_generator_step]
    | false =>
      cases s with
      | none => simp [event_generator_step]
      | some r =>
        by_cases h1 : r.status = "failed"
        · simp [event_generator_step, stripInternal, h1]
        · by_cases h2 : r.summary_status = some "completed"
          · simp [event_generator_step, stripInternal, h1, h2]
          · by_cases h3 : r.summary_status = some "failed"
            · simp [event_generator_step, stripInternal, h1, h2, h3]
            · simp [event_generator_step, stripInternal, h1, h2, h3]
  · rintro rfl rfl
    rfl
  · rintro r rfl rfl h1 h2 h3
    simp [event_generator_step, stripInternal, h1, h2, h3]

/-- Witness for C7: a completed record whose summary has not started keeps
    the stream polling, and an absent record yields the terminal
    not-found event. -/
theorem c7_stream_termination_w :
    event_generator_step false (some jobCompletedK) =
      ⟨[.record (stripInternal jobCompletedK)], true⟩ ∧
    event_generator_step false none = ⟨[.notFound], false⟩ :=
  ⟨(c7_stream_termination false (some jobCompletedK)).2.2.1 jobCompletedK
     rfl rfl (by decide) (by decide) (by decide),
   (c7_stream_termination false none).2.1 rfl rfl⟩

/-- Claim C8: both externally observable read paths strip the internal
    audio storage reference: every record returned by the point status
    read and every record event emitted by the live status stream has
    `object_key` absent. -/
theorem c8_reads_strip_object_key :
    (∀ redisOk store r, get_status redisOk store = .ok r →
      r.object_key = none) ∧
    (∀ d s r, StreamEvent.record r ∈ (event_generator_step d s).events →
      r.object_key = none) := by
  constructor
  · intro redisOk store r h
    cases redisOk with
    | false => simp [get_status] at h
    | true =>
      cases store with
      | none => simp [get_status] at h
      | some r0 =>
        simp only [get_status, Bool.not_true, reduceIte] at h
        cases h
        rfl
  · intro d s r h
    cases d with
    | true => simp [event_generator_step] at h
    | false =>
      cases s with
      | none => simp [event_generator_step] at h
      | some r0 =>
        simp only [event_generator_step, Bool.not_false, reduceIte,
          List.mem_singleton] at h
        cases h with
        | head => rfl
        | tail _ h2 => cases h2

/-- Witness for C8: a stored record carrying `object_key = "abc.mp3"` is
    returned by the point read, and emitted by the stream, with the key
    stripped. -/
theorem c8_reads_strip_object_key_w :
    (stripInternal jobPendingK).object_key = none ∧
    jobPendingK.object_key = some "abc.mp3" :=
  ⟨c8_reads_strip_object_key.1 true (some jobPendingK)
     (stripInternal jobPendingK) rfl, rfl⟩

/-! ## Helper lemmas for repeated knowledge-base initialization -/

lemma uttsTruthy_of_ne (us : List Utterance) (h : us ≠ []) :
    uttsTruthy (some us) = true := by
  cases us with
  | nil => exact absurd rfl h
  | cons a l => rfl

lemma add_transcript_spec (split : List Document → List Document)
    (coll : Option (List Document)) (us : List Utterance) (tid : String)
    (hd : transcriptDocuments tid us ≠ []) :
    add_transcript_to_collection split coll us tid =
      (coll.getD [] ++ split (transcriptDocuments tid us),
       (split (transcriptDocuments tid us)).length) := by
  simp [add_transcript_to_collection, hd]

lemma join_replicate_append (l : List Document) (n : Nat) :
    (List.replicate n l).join ++ l = l ++ (List.replicate n l).join := by
  induction n with
  | zero => simp
  | succ n ih =>
    calc (List.replicate (n + 1) l).join ++ l
        = l ++ ((List.replicate n l).join ++ l) := by
          simp [List.replicate_succ, List.append_assoc]
      _ = l ++ (l ++ (List.replicate n l).join) := by rw [ih]
      _ = l ++ (List.replicate (n + 1) l).join := by
          simp [List.replicate_succ]

lemma count_join_replicate (l : List Document) (n : Nat) (c : Document) :
    ((List.replicate n l).join).count c = n * l.count c := by
  induction n with
  | zero => simp
  | succ n ih =>
    simp only [List.replicate_succ, List.join_cons, List.count_append, ih,
      Nat.succ_mul]
    omega

lemma kb_iterate (split : List Document → List Document)
    (us : List Utterance) (tid : String)
    (hd : transcriptDocuments tid us ≠ []) (n : Nat) :
    (fun c => (add_transcript_to_collection split (some c) us tid).1)^[n] []
      = (List.replicate n (split (transcriptDocuments tid us))).join := by
  induction n with
  | zero => rfl
  | succ n ih =>
    rw [Function.iterate_succ_apply', ih]
    show (add_transcript_to_collection split
      (some ((List.replicate n (split (transcriptDocuments tid us))).join))
      us tid).1 = _
    rw [add_transcript_spec split _ us tid hd]
    show (List.replicate n (split (transcriptDocuments tid us))).join ++
        split (transcriptDocuments tid us) = _
    rw [join_replicate_append]
    simp [List.replicate_succ]

/-- Claim C10: knowledge-base initialization is not idempotent.  Each call
    of `add_transcript_to_collection` — whether from the automatic
    `initialize_vector_store_task` fired at completion or from the manual
    `initialize_knowledge_base` endpoint, both targeting the collection
    `chat_{task_id}` — appends the transcript's chunks to the existing
    collection again; after `n` initializations of an initially empty
    collection the contents are `n` concatenated copies of the chunk list
    (so every chunk occurs `n` times as often), and the stats
    `document_count` equals `n * chunks.length`, strictly growing with
    each further call. -/
theorem c10_kb_init_not_idempotent
    (split : List Document → List Document) (us : List Utterance)
    (tid : String)
    (hd : transcriptDocuments tid us ≠ [])
    (hc : split (transcriptDocuments tid us) ≠ []) :
    (∀ c, (add_transcript_to_collection split (some c) us tid).1 =
      c ++ split (transcriptDocuments tid us)) ∧
    (∀ n,
      (fun c => (add_transcript_to_collection split (some c) us tid).1)^[n]
        [] =
      (List.replicate n (split (transcriptDocuments tid us))).join) ∧
    (∀ n, get_collection_stats (some
        ((fun c => (add_transcript_to_collection split (some c) us tid).1)^[n]
          [])) = n * (split (transcriptDocuments tid us)).length) ∧
    (∀ n, get_collection_stats (some
        ((fun c => (add_transcript_to_collection split (some c) us tid).1)^[n]
          [])) < get_collection_stats (some
        ((fun c =>
          (add_transcript_to_collection split (some c) us tid).1)^[n + 1]
          []))) ∧
    (∀ n c0,
      ((List.replicate n (split (transcriptDocuments tid us))).join).count c0
        = n * (split (transcriptDocuments tid us)).count c0) ∧
    (∀ cur coll, cur.status = "completed" → cur.utterances = some us →
      (init_knowledge_base true (.ok ()) split tid (some cur) coll).2 =
        some (coll.getD [] ++ split (transcriptDocuments tid us))) ∧
    (∀ cur coll, cur.status = "completed" → cur.utterances = some us →
      (init_vector_store_task ⟨true, split, .ok ()⟩ tid (some cur) coll).2 =
        some (coll.getD [] ++ split (transcriptDocuments tid us))) := by
  have hus : us ≠ [] := by
    intro h
    rw [h] at hd
    exact hd rfl
  have hlen : 0 < (split (transcriptDocuments tid us)).length :=
    List.length_pos.mpr hc
  refine ⟨?_, kb_iterate split us tid hd, ?_, ?_, ?_, ?_, ?_⟩
  · intro c
    rw [add_transcript_spec split (some c) us tid hd]
    rfl
  · intro n
    rw [kb_iterate split us tid hd n]
    simp [get_collection_stats, count_join_replicate]
  · intro n
    rw [kb_iterate split us tid hd n, kb_iterate split us tid hd (n + 1)]
    simp only [get_collection_stats, Option.getD_some, List.length_join,
      List.map_replicate, List.sum_replicate, smul_eq_mul]
    exact Nat.mul_lt_mul_of_lt_of_le (Nat.lt_succ_self n) (Nat.le_refl _)
      hlen
  · intro n c0
    exact count_join_replicate _ n c0
  · intro cur coll hstat hu
    simp [init_knowledge_base, hstat, hu, uttsTruthy_of_ne us hus,
      add_transcript_spec split coll us tid hd]
  · intro cur coll hstat hu
    simp [init_vector_store_task, hstat, hu, uttsTruthy_of_ne us hus,
      add_transcript_spec split coll us tid hd]

/-- Witness for C10: with the identity splitter and the one-utterance
    transcript "hello world", two initializations of an empty collection
    yield two copies of the chunk list and a document count of 2. -/
theorem c10_kb_init_not_idempotent_w :
    ((fun c => (add_transcript_to_collection (fun ds => ds) (some c)
        [⟨none, "hello world"⟩] "t1").1)^[2] [] =
      (List.replicate 2
        (transcriptDocuments "t1" [⟨none, "hello world"⟩])).join) ∧
    get_collection_stats (some ((fun c => (add_transcript_to_collection
        (fun ds => ds) (some c) [⟨none, "hello world"⟩] "t1").1)^[2] [])) =
      2 * (transcriptDocuments "t1" [⟨none, "hello world"⟩]).length :=
  ⟨(c10_kb_init_not_idempotent (fun ds => ds) [⟨none, "hello world"⟩] "t1"
      (by decide) (by decide)).2.1 2,
   (c10_kb_init_not_idempotent (fun ds => ds) [⟨none, "hello world"⟩] "t1"
      (by decide) (by decide)).2.2.1 2⟩
